import Mathlib

/-
  Verification of the proxier job execution engine (cmd/server/main.go).

  The engine receives a parsed ProxyJob, validates its method against the
  dispatch switch, computes a context deadline from the job timeout, runs
  PerformRequest on a separate goroutine that delivers one ProxyResponse on
  a buffered channel, and reduces the first of deadline expiry or response
  delivery into a single reply.

  The network round trip and its scheduling are external to the program, so
  they are inputs of the model: a CallEnv carries the instant at which the
  goroutine would deliver on the channel (none when the call never resolves)
  together with the status, body and error list returned by the agent Bytes
  call. Go select chooses pseudo-randomly when several cases are ready at
  once, which the model exposes as an explicit tie parameter used only when
  both channels become ready at the same instant.
-/

namespace Proxier

/-- The ProxyJob struct: url, method, headers, body, cookies and timeout.
Header and cookie maps are modelled as association lists; map keys are
distinct in Go, which theorems state as a Nodup hypothesis where needed. -/
structure ProxyJob where
  url : String
  method : String
  headers : List (String × String)
  body : String
  cookies : List (String × String)
  timeout : Int
  deriving DecidableEq

/-- The triple returned by the agent Bytes call: status code, body (none for
a nil slice) and error list. It is an input of the model: the network round
trip is external to the program. -/
structure BytesResult where
  statusCode : Int
  body : Option (List Nat)
  errs : List String
  deriving DecidableEq

/-- The ProxyResponse struct sent on the response channel: status code,
body (none for a nil slice) and error list. -/
structure ProxyResponse where
  statusCode : Int
  body : Option (List Nat)
  errs : List String
  deriving DecidableEq

/-- The outbound agent state the builder touches: request headers, cookies
and the optional request body. -/
structure AgentState where
  headers : List (String × String)
  cookies : List (String × String)
  body : Option String
  deriving DecidableEq

/-- A fresh agent as returned by client.Get, client.Post, client.Put or
client.Delete: no headers, cookies or body set yet. -/
def initialAgent : AgentState :=
  { headers := [], cookies := [], body := none }

/-- First value associated to a key in an association list. -/
def getHeader : List (String × String) → String → Option String
  | [], _ => none
  | (k0, v) :: rest, k => if k0 = k then some v else getHeader rest k

/-- Set semantics of Header.Set and of Agent.Cookie: any pair with the same
key is removed and the new pair is appended. -/
def headerSet (l : List (String × String)) (k v : String) : List (String × String) :=
  l.filter (fun p => !(p.1 == k)) ++ [(k, v)]

/-- Apply a list of key/value pairs by successive sets, as the range loops
of PerformRequest do. -/
def setAll (init : List (String × String)) (l : List (String × String)) :
    List (String × String) :=
  l.foldl (fun acc kv => headerSet acc kv.1 kv.2) init

/-- The header loop of PerformRequest. -/
def applyHeaders (a : AgentState) (hs : List (String × String)) : AgentState :=
  { a with headers := setAll a.headers hs }

/-- The cookie loop of PerformRequest. -/
def applyCookies (a : AgentState) (cs : List (String × String)) : AgentState :=
  { a with cookies := setAll a.cookies cs }

/-- The body attachment of PerformRequest: the body is set on the agent only
when the job body is a non-empty string. -/
def applyBody (a : AgentState) (b : String) : AgentState :=
  if b = "" then a else { a with body := some b }

/-- The outbound request builder: PerformRequest applies every header pair,
then every cookie pair, then the optional body. -/
def buildRequest (a : AgentState) (job : ProxyJob) : AgentState :=
  applyBody (applyCookies (applyHeaders a job.headers) job.cookies) job.body

/-- Keys of an association list. -/
def keys (l : List (String × String)) : List String :=
  l.map Prod.fst

/-- The ProxyResponse PerformRequest sends for a given round-trip outcome:
when the error list is non-empty, status code 0 and nil body with the errors
kept; otherwise the status, body and (empty) error list exactly as returned. -/
def performRequestResponse (r : BytesResult) : ProxyResponse :=
  if r.errs.length > 0 then
    { statusCode := 0, body := none, errs := r.errs }
  else
    { statusCode := r.statusCode, body := r.body, errs := r.errs }

/-- The sequence of values PerformRequest sends on the response channel:
each of its two branches sends exactly once and then returns. -/
def performRequestSends (r : BytesResult) : List ProxyResponse :=
  [performRequestResponse r]

/-- A buffered channel of ProxyResponse values. -/
structure RespChannel where
  capacity : Nat
  buffer : List ProxyResponse
  deriving DecidableEq

/-- A channel send completes without blocking exactly when the buffer has
room; a send on a full buffer with no receiver would block, modelled as
none. -/
def sendNonBlocking (c : RespChannel) (v : ProxyResponse) : Option RespChannel :=
  if c.buffer.length < c.capacity then
    some { c with buffer := c.buffer ++ [v] }
  else
    none

/-- Perform a sequence of sends, failing if any one of them would block. -/
def sendAllNonBlocking : RespChannel → List ProxyResponse → Option RespChannel
  | c, [] => some c
  | c, v :: vs =>
    match sendNonBlocking c v with
    | none => none
    | some c2 => sendAllNonBlocking c2 vs

/-- The response channel made in PerformProxyJob: buffer size one, empty. -/
def newResponseChan : RespChannel :=
  { capacity := 1, buffer := [] }

/-- The timeout defaulting step: a zero timeout is replaced by 30 seconds. -/
def defaultedTimeout (t : Int) : Int :=
  if t = 0 then 30 else t

/-- The context timeout in seconds: 30 multiplied by the defaulted job
timeout, as in the WithTimeout duration of 30 times Duration of job.Timeout
times Second. -/
def ctxTimeoutSeconds (t : Int) : Int :=
  30 * defaultedTimeout t

/-- The absolute context deadline for a job dispatched at instant now. -/
def ctxDeadline (now : Int) (job : ProxyJob) : Int :=
  now + ctxTimeoutSeconds job.timeout

/-- Seconds after the select starts at which the Done channel of the context
is ready: at the deadline, or immediately when the deadline already passed
(a negative duration clamps to an already-expired context). -/
def doneDelay (t : Int) : Nat :=
  (ctxTimeoutSeconds t).toNat

/-- The method whitelist: exactly the four cases of the dispatch switch. -/
def validMethod (m : String) : Bool :=
  m == "GET" || m == "POST" || m == "PUT" || m == "DELETE"

/-- External behaviour of one outbound call: the instant (seconds after the
select starts, none for never) at which the goroutine delivers on the
response channel, and the round-trip outcome of the agent Bytes call. -/
structure CallEnv where
  arrival : Option Nat
  bytes : BytesResult
  deriving DecidableEq

/-- The select between ctx.Done and the response channel: the branch that is
ready strictly first wins; when both become ready at the same instant the
tie flag decides, as Go select chooses pseudo-randomly among ready cases. -/
def timeoutWins (t : Int) (arrival : Option Nat) (tie : Bool) : Bool :=
  match arrival with
  | none => true
  | some d =>
    if doneDelay t < d then true
    else if doneDelay t = d then tie
    else false

/-- The error message of the timed-out reply body. -/
def timeoutReplyError : String := "Request timed out"

/-- The synthetic error appended on the transport-failure path. -/
def syntheticFailureError : String := "request timed out"

/-- The four reply shapes PerformProxyJob can produce for a parsed job:
the 400 invalid-method reply, the 408 timed-out reply, the 502 bad-gateway
reply carrying an error list, and the pass-through success reply carrying
the origin status code, body and error list. -/
inductive ProxyReply where
  | invalidMethod : ProxyReply
  | requestTimedOut : ProxyReply
  | badGateway : List String → ProxyReply
  | success : Int → Option (List Nat) → List String → ProxyReply
  deriving DecidableEq

/-- The HTTP status set on each reply: StatusBadRequest 400,
StatusRequestTimeout 408, StatusBadGateway 502, or the origin status code. -/
def ProxyReply.httpStatus : ProxyReply → Int
  | ProxyReply.invalidMethod => 400
  | ProxyReply.requestTimedOut => 408
  | ProxyReply.badGateway _ => 502
  | ProxyReply.success sc _ _ => sc

/-- The reducer of a delivered channel response: a non-empty error list
yields the bad-gateway reply with the synthetic marker appended to the
errors; otherwise status, body and errors pass through into the success
reply. -/
def reduceResponse (resp : ProxyResponse) : ProxyReply :=
  if resp.errs.length > 0 then
    ProxyReply.badGateway (resp.errs ++ [syntheticFailureError])
  else
    ProxyReply.success resp.statusCode resp.body resp.errs

/-- The observable output of one PerformProxyJob run: the reply, the built
outbound agent when one was built, and whether the goroutine was started
and an outbound network attempt made. -/
structure EngineOutput where
  reply : ProxyReply
  requestBuilt : Option AgentState
  goroutineStarted : Bool
  networkAttempted : Bool
  deriving DecidableEq

/-- PerformProxyJob for a parsed job: default the timeout, validate the
method against the dispatch switch (an invalid method returns 400 before any
agent is built or goroutine started), build the outbound request, start the
goroutine, and reduce the first of deadline expiry or response delivery. -/
def performProxyJob (job : ProxyJob) (env : CallEnv) (tie : Bool) : EngineOutput :=
  if validMethod job.method then
    { reply :=
        if timeoutWins job.timeout env.arrival tie then
          ProxyReply.requestTimedOut
        else
          reduceResponse (performRequestResponse env.bytes),
      requestBuilt := some (buildRequest initialAgent job),
      goroutineStarted := true,
      networkAttempted := true }
  else
    { reply := ProxyReply.invalidMethod,
      requestBuilt := none,
      goroutineStarted := false,
      networkAttempted := false }

/-- A JSON value of the reply maps: a string, an integer, a byte slice or
an error list. -/
inductive JsonVal where
  | str : String → JsonVal
  | num : Int → JsonVal
  | bytes : Option (List Nat) → JsonVal
  | errArr : List String → JsonVal
  deriving DecidableEq

/-- The JSON fields of each reply, mirroring the fiber.Map literals. -/
def replyFields : ProxyReply → List (String × JsonVal)
  | ProxyReply.invalidMethod => [("error", JsonVal.str "Invalid HTTP method")]
  | ProxyReply.requestTimedOut => [("error", JsonVal.str timeoutReplyError)]
  | ProxyReply.badGateway es => [("errs", JsonVal.errArr es)]
  | ProxyReply.success sc b es =>
    [("status_code", JsonVal.num sc), ("body", JsonVal.bytes b),
     ("errs", JsonVal.errArr es)]

/-- Whether a field of the given name is present among the JSON fields. -/
def hasField (fields : List (String × JsonVal)) (k : String) : Bool :=
  fields.any (fun p => p.1 == k)

/-- The Completed outcome kind: the pass-through success reply. -/
def isCompleted : ProxyReply → Bool
  | ProxyReply.success _ _ _ => true
  | _ => false

/-- The TransportFailure outcome kind: the bad-gateway reply. -/
def isTransportFailure : ProxyReply → Bool
  | ProxyReply.badGateway _ => true
  | _ => false

/-- The TimedOut outcome kind: the timed-out reply. -/
def isTimedOut : ProxyReply → Bool
  | ProxyReply.requestTimedOut => true
  | _ => false

/-- The list of error messages a reply carries to the caller. -/
def replyErrorList : ProxyReply → List String
  | ProxyReply.invalidMethod => ["Invalid HTTP method"]
  | ProxyReply.requestTimedOut => [timeoutReplyError]
  | ProxyReply.badGateway es => es
  | ProxyReply.success _ _ es => es

/-- Looking a key up past a prefix that does not contain it. -/
theorem getHeader_append_of_none (l1 l2 : List (String × String)) (k : String)
    (h : getHeader l1 k = none) : getHeader (l1 ++ l2) k = getHeader l2 k := by
  induction l1 with
  | nil => rfl
  | cons p rest ih =>
    obtain ⟨k0, v⟩ := p
    by_cases hk : k0 = k
    · simp [getHeader, hk] at h
    · simp only [getHeader, hk, if_false] at h
      simpa [getHeader, hk] using ih h

/-- Filtering a key out makes its lookup fail. -/
theorem getHeader_filter_ne (l : List (String × String)) (k : String) :
    getHeader (l.filter (fun p => !(p.1 == k))) k = none := by
  induction l with
  | nil => rfl
  | cons p rest ih =>
    obtain ⟨k0, v⟩ := p
    rw [List.filter_cons]
    by_cases hk : k0 = k
    · simp [hk, ih]
    · simp [hk, getHeader, ih]

/-- After setting a key, looking that key up yields the new value. -/
theorem getHeader_headerSet_self (l : List (String × String)) (k v : String) :
    getHeader (headerSet l k v) k = some v := by
  unfold headerSet
  rw [getHeader_append_of_none _ _ _ (getHeader_filter_ne l k)]
  simp [getHeader]

/-- Setting one key leaves the lookup of any other key unchanged. -/
theorem getHeader_headerSet_ne (l : List (String × String)) (k0 v k : String)
    (h : k0 ≠ k) : getHeader (headerSet l k0 v) k = getHeader l k := by
  induction l with
  | nil => simp [headerSet, getHeader, h]
  | cons p rest ih =>
    obtain ⟨k1, w⟩ := p
    unfold headerSet at ih ⊢
    rw [List.filter_cons]
    by_cases hk : k1 = k0
    · rw [if_neg (by simp [hk])]
      rw [ih]
      simp [getHeader, (show k1 ≠ k from hk.symm ▸ h)]
    · rw [if_pos (by simp [hk])]
      by_cases hk1 : k1 = k
      · simp [getHeader, hk1]
      · simp [getHeader, hk1, ih]

/-- Applying pairs whose keys avoid k leaves the lookup of k unchanged. -/
theorem setAll_not_mem (l : List (String × String)) (init : List (String × String))
    (k : String) (h : k ∉ keys l) : getHeader (setAll init l) k = getHeader init k := by
  induction l generalizing init with
  | nil => rfl
  | cons p rest ih =>
    obtain ⟨k0, v⟩ := p
    simp only [keys, List.map_cons, List.mem_cons, not_or] at h
    have step : setAll init ((k0, v) :: rest) = setAll (headerSet init k0 v) rest := rfl
    rw [step, ih (headerSet init k0 v) (by simpa [keys] using h.2)]
    exact getHeader_headerSet_ne init k0 v k (fun he => h.1 he.symm)

/-- With distinct keys, applying all pairs makes each pair's lookup succeed. -/
theorem setAll_mem (l : List (String × String)) (init : List (String × String))
    (k v : String) (hnd : (keys l).Nodup) (hmem : (k, v) ∈ l) :
    getHeader (setAll init l) k = some v := by
  induction l generalizing init with
  | nil => cases hmem
  | cons p rest ih =>
    obtain ⟨k0, v0⟩ := p
    have hnd2 : (k0 :: keys rest).Nodup := by simpa [keys] using hnd
    have step : setAll init ((k0, v0) :: rest) = setAll (headerSet init k0 v0) rest := rfl
    rw [step]
    rcases List.mem_cons.mp hmem with heq | hmem2
    · obtain ⟨hk, hv⟩ := Prod.mk.injEq k v k0 v0 ▸ heq
      subst hk; subst hv
      have hnk : k ∉ keys rest := (List.nodup_cons.mp hnd2).1
      rw [setAll_not_mem rest _ k hnk]
      exact getHeader_headerSet_self init k v
    · exact ih (headerSet init k0 v0) (List.nodup_cons.mp hnd2).2 hmem2

/-- C1: for every job, the context deadline is now plus 30 times the
caller-supplied timeout, where the timeout is first replaced by the default
30 when it is zero (an absent JSON field parses to zero). -/
theorem deadline_is_thirty_times_defaulted_timeout (now : Int) (job : ProxyJob) :
    ctxDeadline now job = now + 30 * (if job.timeout = 0 then 30 else job.timeout) := rfl

/-- C6: the outbound request builder applies every header key/value pair of
the job, applies every cookie key/value pair, and attaches the body to the
request if and only if the body is non-empty; an empty body leaves the
request body untouched. Header and cookie keys are distinct, as they come
from Go maps. -/
theorem builder_applies_headers_cookies_body (a : AgentState) (job : ProxyJob)
    (hh : (keys job.headers).Nodup) (hc : (keys job.cookies).Nodup) :
    (∀ p ∈ job.headers, getHeader (buildRequest a job).headers p.1 = some p.2) ∧
    (∀ p ∈ job.cookies, getHeader (buildRequest a job).cookies p.1 = some p.2) ∧
    (buildRequest a job).body = (if job.body = "" then a.body else some job.body) := by
  have hHeaders : (buildRequest a job).headers = setAll a.headers job.headers := by
    unfold buildRequest applyBody applyCookies applyHeaders
    split <;> rfl
  have hCookies : (buildRequest a job).cookies = setAll a.cookies job.cookies := by
    unfold buildRequest applyBody applyCookies applyHeaders
    split <;> rfl
  have hBody : (buildRequest a job).body = (if job.body = "" then a.body else some job.body) := by
    unfold buildRequest applyBody applyCookies applyHeaders
    split <;> rfl
  refine ⟨?_, ?_, hBody⟩
  · intro p hp
    rw [hHeaders]
    exact setAll_mem job.headers a.headers p.1 p.2 hh hp
  · intro p hp
    rw [hCookies]
    exact setAll_mem job.cookies a.cookies p.1 p.2 hc hp

/-- Concrete job exercising the builder: two headers, one cookie, a body. -/
def jobForBuilder : ProxyJob :=
  { url := "http://example.com/a", method := "GET",
    headers := [("Accept", "text/html"), ("X-Id", "7")], body := "payload",
    cookies := [("session", "abc")], timeout := 1 }

theorem builder_applies_headers_cookies_body_witness :
    (keys jobForBuilder.headers).Nodup ∧ (keys jobForBuilder.cookies).Nodup ∧
    ((∀ p ∈ jobForBuilder.headers,
        getHeader (buildRequest initialAgent jobForBuilder).headers p.1 = some p.2) ∧
     (∀ p ∈ jobForBuilder.cookies,
        getHeader (buildRequest initialAgent jobForBuilder).cookies p.1 = some p.2) ∧
     (buildRequest initialAgent jobForBuilder).body =
       (if jobForBuilder.body = "" then initialAgent.body else some jobForBuilder.body)) :=
  ⟨by decide, by decide,
   builder_applies_headers_cookies_body initialAgent jobForBuilder (by decide) (by decide)⟩

/-- C2: a job whose method lies outside the set of GET, POST, PUT and DELETE
short-circuits with the 400 invalid-method reply before dispatch: no outbound
request is built, no goroutine is started, and no network attempt is made. -/
theorem invalid_method_short_circuits (job : ProxyJob) (env : CallEnv) (tie : Bool)
    (h : job.method ∉ (["GET", "POST", "PUT", "DELETE"] : List String)) :
    performProxyJob job env tie =
      { reply := ProxyReply.invalidMethod, requestBuilt := none,
        goroutineStarted := false, networkAttempted := false } ∧
    (performProxyJob job env tie).reply.httpStatus = 400 := by
  have hv : validMethod job.method = false := by
    simp only [List.mem_cons, List.not_mem_nil, or_false, not_or] at h
    obtain ⟨h1, h2, h3, h4⟩ := h
    simp [validMethod, h1, h2, h3, h4]
  constructor
  · simp [performProxyJob, hv]
  · simp [performProxyJob, hv, ProxyReply.httpStatus]

/-- Concrete job with an unsupported method. -/
def jobWithPatchMethod : ProxyJob :=
  { url := "http://example.com/a", method := "PATCH", headers := [], body := "",
    cookies := [], timeout := 5 }

/-- Concrete call environment: fast delivery of a 200 response. -/
def envFastOk : CallEnv :=
  { arrival := some 1,
    bytes := { statusCode := 200, body := some [111, 107], errs := [] } }

theorem invalid_method_short_circuits_witness :
    jobWithPatchMethod.method ∉ (["GET", "POST", "PUT", "DELETE"] : List String) ∧
    (performProxyJob jobWithPatchMethod envFastOk false =
      { reply := ProxyReply.invalidMethod, requestBuilt := none,
        goroutineStarted := false, networkAttempted := false } ∧
     (performProxyJob jobWithPatchMethod envFastOk false).reply.httpStatus = 400) :=
  ⟨by decide, invalid_method_short_circuits jobWithPatchMethod envFastOk false (by decide)⟩

/-- A response arriving strictly before the deadline wins the select. -/
theorem timeoutWins_false_of_early (t : Int) (arrival : Option Nat) (tie : Bool)
    (d : Nat) (ha : arrival = some d) (hd : d < doneDelay t) :
    timeoutWins t arrival tie = false := by
  rw [ha]
  show (if doneDelay t < d then true else if doneDelay t = d then tie else false) = false
  rw [if_neg (by omega), if_neg (by omega)]

/-- C3: when the outbound call completes strictly before the deadline with no
transport error, the reply is the pass-through success: the status code and
body are exactly what the call returned (including 4xx and 5xx codes), the
error list is empty, and the HTTP status sent to the caller is the origin
status code. -/
theorem completed_passes_status_and_body_through (job : ProxyJob) (env : CallEnv)
    (tie : Bool) (d : Nat)
    (hm : validMethod job.method = true)
    (ha : env.arrival = some d)
    (hd : d < doneDelay job.timeout)
    (he : env.bytes.errs = []) :
    (performProxyJob job env tie).reply =
      ProxyReply.success env.bytes.statusCode env.bytes.body [] ∧
    (performProxyJob job env tie).reply.httpStatus = env.bytes.statusCode ∧
    replyErrorList (performProxyJob job env tie).reply = [] := by
  have hw := timeoutWins_false_of_early job.timeout env.arrival tie d ha hd
  have hr : (performProxyJob job env tie).reply =
      ProxyReply.success env.bytes.statusCode env.bytes.body [] := by
    simp [performProxyJob, hm, hw, reduceResponse, performRequestResponse, he]
  refine ⟨hr, ?_, ?_⟩
  · rw [hr]; rfl
  · rw [hr]; rfl

/-- Concrete job with a valid method and timeout one second. -/
def jobGetShort : ProxyJob :=
  { url := "http://example.com/a", method := "GET", headers := [], body := "",
    cookies := [], timeout := 1 }

/-- Concrete environment: the origin answers 503 after two seconds. -/
def envOrigin503 : CallEnv :=
  { arrival := some 2,
    bytes := { statusCode := 503, body := some [110, 111], errs := [] } }

theorem completed_passes_status_and_body_through_witness :
    validMethod jobGetShort.method = true ∧
    envOrigin503.arrival = some 2 ∧
    2 < doneDelay jobGetShort.timeout ∧
    envOrigin503.bytes.errs = [] ∧
    ((performProxyJob jobGetShort envOrigin503 false).reply =
       ProxyReply.success envOrigin503.bytes.statusCode envOrigin503.bytes.body [] ∧
     (performProxyJob jobGetShort envOrigin503 false).reply.httpStatus =
       envOrigin503.bytes.statusCode ∧
     replyErrorList (performProxyJob jobGetShort envOrigin503 false).reply = []) :=
  ⟨by decide, by decide, by decide, by decide,
   completed_passes_status_and_body_through jobGetShort envOrigin503 false 2
     (by decide) (by decide) (by decide) (by decide)⟩

/-- C4: when the outbound call fails with transport errors strictly before
the deadline, the channel carries status code 0 with a nil body and the
errors, and the reply is the 502 bad-gateway reply whose error list is the
original list preserved verbatim and in order with exactly one synthetic
error appended. -/
theorem transport_failure_preserves_errors (job : ProxyJob) (env : CallEnv)
    (tie : Bool) (d : Nat)
    (hm : validMethod job.method = true)
    (ha : env.arrival = some d)
    (hd : d < doneDelay job.timeout)
    (he : env.bytes.errs ≠ []) :
    performRequestResponse env.bytes =
      { statusCode := 0, body := none, errs := env.bytes.errs } ∧
    (performProxyJob job env tie).reply =
      ProxyReply.badGateway (env.bytes.errs ++ [syntheticFailureError]) ∧
    (performProxyJob job env tie).reply.httpStatus = 502 := by
  have hlen : env.bytes.errs.length > 0 := List.length_pos.mpr he
  have hw := timeoutWins_false_of_early job.timeout env.arrival tie d ha hd
  have hresp : performRequestResponse env.bytes =
      { statusCode := 0, body := none, errs := env.bytes.errs } := by
    unfold performRequestResponse
    rw [if_pos hlen]
  have hr : (performProxyJob job env tie).reply =
      ProxyReply.badGateway (env.bytes.errs ++ [syntheticFailureError]) := by
    simp [performProxyJob, hm, hw, hresp, reduceResponse, hlen]
  exact ⟨hresp, hr, by rw [hr]; rfl⟩

/-- Concrete environment: the call fails fast with two transport errors. -/
def envTwoTransportErrors : CallEnv :=
  { arrival := some 3,
    bytes := { statusCode := 0, body := none,
               errs := ["dial tcp: connection refused", "tls: handshake failure"] } }

theorem transport_failure_preserves_errors_witness :
    validMethod jobGetShort.method = true ∧
    envTwoTransportErrors.arrival = some 3 ∧
    3 < doneDelay jobGetShort.timeout ∧
    envTwoTransportErrors.bytes.errs ≠ [] ∧
    (performRequestResponse envTwoTransportErrors.bytes =
       { statusCode := 0, body := none, errs := envTwoTransportErrors.bytes.errs } ∧
     (performProxyJob jobGetShort envTwoTransportErrors false).reply =
       ProxyReply.badGateway (envTwoTransportErrors.bytes.errs ++ [syntheticFailureError]) ∧
     (performProxyJob jobGetShort envTwoTransportErrors false).reply.httpStatus = 502) :=
  ⟨by decide, by decide, by decide, by decide,
   transport_failure_preserves_errors jobGetShort envTwoTransportErrors false 3
     (by decide) (by decide) (by decide) (by decide)⟩

/-- C5: when the deadline elapses strictly before the outbound call resolves
(or the call never resolves), the reply is the 408 timed-out reply: its only
JSON field is the single timeout error message, it carries no origin status
code, and it contains exactly one error regardless of what the discarded
call would have produced. -/
theorem deadline_expiry_times_out (job : ProxyJob) (env : CallEnv) (tie : Bool)
    (hm : validMethod job.method = true)
    (ha : ∀ d, env.arrival = some d → doneDelay job.timeout < d) :
    (performProxyJob job env tie).reply = ProxyReply.requestTimedOut ∧
    (performProxyJob job env tie).reply.httpStatus = 408 ∧
    replyFields (performProxyJob job env tie).reply =
      [("error", JsonVal.str timeoutReplyError)] ∧
    hasField (replyFields (performProxyJob job env tie).reply) "status_code" = false ∧
    (replyErrorList (performProxyJob job env tie).reply).length = 1 := by
  have hw : timeoutWins job.timeout env.arrival tie = true := by
    cases harr : env.arrival with
    | none => rfl
    | some d =>
      have hlt := ha d harr
      show (if doneDelay job.timeout < d then true
            else if doneDelay job.timeout = d then tie else false) = true
      rw [if_pos hlt]
  have hr : (performProxyJob job env tie).reply = ProxyReply.requestTimedOut := by
    simp [performProxyJob, hm, hw]
  refine ⟨hr, ?_, ?_, ?_, ?_⟩ <;> rw [hr] <;> decide

/-- Concrete environment: the outbound call never resolves. -/
def envNeverResolves : CallEnv :=
  { arrival := none,
    bytes := { statusCode := 200, body := some [111], errs := ["late error"] } }

theorem deadline_expiry_times_out_witness :
    validMethod jobGetShort.method = true ∧
    (∀ d, envNeverResolves.arrival = some d → doneDelay jobGetShort.timeout < d) ∧
    ((performProxyJob jobGetShort envNeverResolves true).reply =
       ProxyReply.requestTimedOut ∧
     (performProxyJob jobGetShort envNeverResolves true).reply.httpStatus = 408 ∧
     replyFields (performProxyJob jobGetShort envNeverResolves true).reply =
       [("error", JsonVal.str timeoutReplyError)] ∧
     hasField (replyFields (performProxyJob jobGetShort envNeverResolves true).reply)
       "status_code" = false ∧
     (replyErrorList (performProxyJob jobGetShort envNeverResolves true).reply).length = 1) :=
  ⟨by decide, fun d hd => Option.noConfusion hd,
   deadline_expiry_times_out jobGetShort envNeverResolves true (by decide)
     (fun d hd => Option.noConfusion hd)⟩

/-- C7: every reply the engine produces for a validated job has exactly one
of the Completed, TransportFailure and TimedOut outcome kinds, and its JSON
fields carry a status code and a body if and only if the outcome kind is
Completed. -/
theorem outcome_kind_invariant (job : ProxyJob) (env : CallEnv) (tie : Bool)
    (r : ProxyReply)
    (hm : validMethod job.method = true)
    (hr : r = (performProxyJob job env tie).reply) :
    ((if isCompleted r then 1 else 0) + (if isTransportFailure r then 1 else 0) +
       (if isTimedOut r then 1 else 0) = 1) ∧
    hasField (replyFields r) "status_code" = isCompleted r ∧
    hasField (replyFields r) "body" = isCompleted r := by
  subst hr
  by_cases hw : timeoutWins job.timeout env.arrival tie
  · have hr2 : (performProxyJob job env tie).reply = ProxyReply.requestTimedOut := by
      simp [performProxyJob, hm, hw]
    rw [hr2]
    decide
  · by_cases he : env.bytes.errs.length > 0
    · have hr2 : (performProxyJob job env tie).reply =
          ProxyReply.badGateway (env.bytes.errs ++ [syntheticFailureError]) := by
        simp [performProxyJob, hm, hw, reduceResponse, performRequestResponse, he]
      rw [hr2]
      refine ⟨by simp [isCompleted, isTransportFailure, isTimedOut], ?_, ?_⟩
      · simp [hasField, replyFields, isCompleted]
      · simp [hasField, replyFields, isCompleted]
    · have hr2 : (performProxyJob job env tie).reply =
          ProxyReply.success env.bytes.statusCode env.bytes.body env.bytes.errs := by
        simp [performProxyJob, hm, hw, reduceResponse, performRequestResponse, he]
      rw [hr2]
      refine ⟨by simp [isCompleted, isTransportFailure, isTimedOut], ?_, ?_⟩
      · simp [hasField, replyFields, isCompleted]
      · simp [hasField, replyFields, isCompleted]

theorem outcome_kind_invariant_witness :
    validMethod jobGetShort.method = true ∧
    ProxyReply.requestTimedOut = (performProxyJob jobGetShort envNeverResolves false).reply ∧
    (((if isCompleted ProxyReply.requestTimedOut then 1 else 0) +
        (if isTransportFailure ProxyReply.requestTimedOut then 1 else 0) +
        (if isTimedOut ProxyReply.requestTimedOut then 1 else 0) = 1) ∧
     hasField (replyFields ProxyReply.requestTimedOut) "status_code" =
       isCompleted ProxyReply.requestTimedOut ∧
     hasField (replyFields ProxyReply.requestTimedOut) "body" =
       isCompleted ProxyReply.requestTimedOut) :=
  ⟨by decide, by decide,
   outcome_kind_invariant jobGetShort envNeverResolves false ProxyReply.requestTimedOut
     (by decide) (by decide)⟩

/-- C8: the response channel is created with a buffer of one, PerformRequest
sends exactly one value per job, and performing that send on the fresh
channel never blocks even if the reducer never receives. -/
theorem single_buffered_send_never_blocks (r : BytesResult) :
    newResponseChan.capacity = 1 ∧
    (performRequestSends r).length = 1 ∧
    (sendAllNonBlocking newResponseChan (performRequestSends r)).isSome = true := by
  refine ⟨rfl, rfl, rfl⟩

/-- C9: a strictly negative timeout is not replaced by the default (the
default applies only to a zero timeout), so the context deadline already
lies in the past and the engine replies with the timed-out reply without
awaiting the outcome of the outbound call, which resolves strictly after
the select begins if it resolves at all. -/
theorem negative_timeout_skips_default_and_times_out (job : ProxyJob) (env : CallEnv)
    (tie : Bool) (now : Int)
    (ht : job.timeout < 0)
    (hm : validMethod job.method = true)
    (ha : ∀ d, env.arrival = some d → 0 < d) :
    defaultedTimeout job.timeout = job.timeout ∧
    ctxDeadline now job < now ∧
    (performProxyJob job env tie).reply = ProxyReply.requestTimedOut := by
  have h0 : defaultedTimeout job.timeout = job.timeout := by
    unfold defaultedTimeout
    rw [if_neg (by omega)]
  have hdd : doneDelay job.timeout = 0 := by
    unfold doneDelay ctxTimeoutSeconds
    rw [h0]
    omega
  have hdl : ctxDeadline now job < now := by
    unfold ctxDeadline ctxTimeoutSeconds
    rw [h0]
    omega
  have hw : timeoutWins job.timeout env.arrival tie = true := by
    cases harr : env.arrival with
    | none => rfl
    | some d =>
      have hd := ha d harr
      show (if doneDelay job.timeout < d then true
            else if doneDelay job.timeout = d then tie else false) = true
      rw [hdd, if_pos hd]
  refine ⟨h0, hdl, ?_⟩
  simp [performProxyJob, hm, hw]

/-- Concrete job with a strictly negative timeout. -/
def jobNegativeTimeout : ProxyJob :=
  { url := "http://example.com/a", method := "GET", headers := [], body := "",
    cookies := [], timeout := -1 }

theorem negative_timeout_skips_default_and_times_out_witness :
    jobNegativeTimeout.timeout < 0 ∧
    validMethod jobNegativeTimeout.method = true ∧
    (∀ d, envNeverResolves.arrival = some d → 0 < d) ∧
    (defaultedTimeout jobNegativeTimeout.timeout = jobNegativeTimeout.timeout ∧
     ctxDeadline 0 jobNegativeTimeout < 0 ∧
     (performProxyJob jobNegativeTimeout envNeverResolves false).reply =
       ProxyReply.requestTimedOut) :=
  ⟨by decide, by decide, fun d hd => Option.noConfusion hd,
   negative_timeout_skips_default_and_times_out jobNegativeTimeout envNeverResolves false 0
     (by decide) (by decide) (fun d hd => Option.noConfusion hd)⟩

/-- C10: the single synthetic error appended on the transport-failure path
is exactly the string request timed out, whose wording coincides letter for
letter, up to letter case, with the message of the genuine timed-out reply
even though the deadline did not fire. -/
theorem synthetic_error_is_request_timed_out (job : ProxyJob) (env : CallEnv)
    (tie : Bool) (d : Nat)
    (hm : validMethod job.method = true)
    (ha : env.arrival = some d)
    (hd : d < doneDelay job.timeout)
    (he : env.bytes.errs ≠ []) :
    (performProxyJob job env tie).reply =
      ProxyReply.badGateway (env.bytes.errs ++ [syntheticFailureError]) ∧
    (replyErrorList (performProxyJob job env tie).reply).getLast? =
      some "request timed out" ∧
    syntheticFailureError = "request timed out" ∧
    syntheticFailureError.toList.map Char.toLower =
      timeoutReplyError.toList.map Char.toLower := by
  have hlen : env.bytes.errs.length > 0 := List.length_pos.mpr he
  have hw := timeoutWins_false_of_early job.timeout env.arrival tie d ha hd
  have hr : (performProxyJob job env tie).reply =
      ProxyReply.badGateway (env.bytes.errs ++ [syntheticFailureError]) := by
    simp [performProxyJob, hm, hw, reduceResponse, performRequestResponse, hlen]
  refine ⟨hr, ?_, rfl, by decide⟩
  rw [hr]
  show (env.bytes.errs ++ [syntheticFailureError]).getLast? = some "request timed out"
  rw [List.getLast?_concat]
  rfl

/-- Concrete environment: the call fails fast with one transport error. -/
def envOneTransportError : CallEnv :=
  { arrival := some 1,
    bytes := { statusCode := 0, body := none,
               errs := ["connection reset by peer"] } }

theorem synthetic_error_is_request_timed_out_witness :
    validMethod jobGetShort.method = true ∧
    envOneTransportError.arrival = some 1 ∧
    1 < doneDelay jobGetShort.timeout ∧
    envOneTransportError.bytes.errs ≠ [] ∧
    ((performProxyJob jobGetShort envOneTransportError false).reply =
       ProxyReply.badGateway (envOneTransportError.bytes.errs ++ [syntheticFailureError]) ∧
     (replyErrorList (performProxyJob jobGetShort envOneTransportError false).reply).getLast? =
       some "request timed out" ∧
     syntheticFailureError = "request timed out" ∧
     syntheticFailureError.toList.map Char.toLower =
       timeoutReplyError.toList.map Char.toLower) :=
  ⟨by decide, by decide, by decide, by decide,
   synthetic_error_is_request_timed_out jobGetShort envOneTransportError false 1
     (by decide) (by decide) (by decide) (by decide)⟩

end Proxier
